import Mathlib

/-!
Shallow embedding of the i2c-target-motor-controller peripheral
(src/upy/i2c_slave.py and src/upy/motor_controller.py), together with
models of its external collaborators (payload codec, command/response
vocabulary, component lifecycle, logger) which are not part of the
repository's source and are therefore modelled from the specification.

Numeric payload fields are floating-point in the source; no arithmetic is
ever performed on them (they are only stored, copied and compared with
zero), so they are modelled as rationals.
-/

namespace I2CMC

/-- Modelled from the spec: the Command/Response Vocabulary collaborator
(closed enumeration of protocol verbs PING, STOP, GO, REQUEST, ENABLE,
DISABLE, ACK, RESPONSE, ERROR) is external to the repository and missing
from src; the verbs are taken verbatim from the spec. -/
inductive Command
  | PING
  | STOP
  | GO
  | REQUEST
  | ENABLE
  | DISABLE
  | ACK
  | RESPONSE
  | ERROR
deriving DecidableEq

/-- Modelled from the spec: each verb has a distinct numeric wire code; the
actual code values are owned by the missing collaborator, so arbitrary
distinct small naturals are used. -/
def Command.code : Command → Nat
  | .PING => 1
  | .STOP => 2
  | .GO => 3
  | .REQUEST => 4
  | .ENABLE => 5
  | .DISABLE => 6
  | .ACK => 7
  | .RESPONSE => 8
  | .ERROR => 9

/-- Modelled from the spec: Command.from_code maps a raw numeric code back
to a verb, yielding nothing for an unrecognized code (the dispatch falls
through to the unknown-command error in that case). -/
def Command.from_code (n : Nat) : Option Command :=
  if n = 1 then some .PING
  else if n = 2 then some .STOP
  else if n = 3 then some .GO
  else if n = 4 then some .REQUEST
  else if n = 5 then some .ENABLE
  else if n = 6 then some .DISABLE
  else if n = 7 then some .ACK
  else if n = 8 then some .RESPONSE
  else if n = 9 then some .ERROR
  else none

/-- Modelled from the spec: the outcome enumeration OKAY/FAIL consumed from
the Motor Controller. -/
inductive Response
  | OKAY
  | FAIL
deriving DecidableEq

/-- Kinds of Python exception relevant to the handler's except clauses:
a ValueError whose message contains the distinguished bad-sync-header text,
any other ValueError, and any other exception. -/
inductive PyErr
  | valueErrorSync
  | valueErrorOther
  | exception
deriving DecidableEq

/-- Modelled from the spec: a decoded frame (Payload) carries a raw command
code and four numeric fields. The codec collaborator is external to the
repository. -/
structure Payload where
  code : Nat
  pfwd : ℚ
  sfwd : ℚ
  paft : ℚ
  saft : ℚ
deriving DecidableEq

/-- The frame size in buffer cells; 23 per the memory-map docstring of
I2CSlave (bytes 0-22 command, 23-45 response). -/
def Payload.PACKET_SIZE : Nat := 23

/-- Payload built from a Command object, as the Payload constructor is
called in send_response. -/
def Payload.mk' (c : Command) (pfwd sfwd paft saft : ℚ) : Payload :=
  ⟨c.code, pfwd, sfwd, paft, saft⟩

/-- Zigzag encoding of an integer into a natural (negative z to 2|z|-1,
nonnegative z to 2z). -/
def encInt (z : ℤ) : Nat :=
  if z < 0 then 2 * z.natAbs - 1 else 2 * z.natAbs

/-- Inverse of the zigzag encoding. -/
def decInt (e : Nat) : ℤ :=
  if e % 2 = 1 then -(((e + 1) / 2 : Nat) : ℤ) else ((e / 2 : Nat) : ℤ)

/-- Modelled from the spec: one numeric field of a frame is carried in two
buffer cells, the zigzag-encoded numerator and the denominator (the real
codec packs a float into fixed bytes; the claims depend only on fixed frame
size and round-trip fidelity). -/
def encNum (q : ℚ) : Nat := encInt q.num

/-- Cell pair to field: a zero denominator cell is undecodable, otherwise
the field is the indicated rational. -/
def decodeQ (a d : Nat) : Option ℚ :=
  if d = 0 then none else some (mkRat (decInt a) d)

/-- Modelled from the spec: first cell of the self-describing sync header
of a frame (nonzero, so that all-zero probe traffic fails the header
check). -/
def SYNC0 : Nat := 122

/-- Modelled from the spec: second sync-header cell. -/
def SYNC1 : Nat := 90

/-- Checksum cell of a frame: content cells reduced mod 256. -/
def Payload.chk (p : Payload) : Nat :=
  (p.code + encNum p.pfwd + p.pfwd.den + encNum p.sfwd + p.sfwd.den +
    encNum p.paft + p.paft.den + encNum p.saft + p.saft.den) % 256

/-- Modelled from the spec: Payload.to_bytes encodes a frame into exactly
PACKET_SIZE cells: two sync-header cells, the command code, two cells per
numeric field, a checksum cell, and zero padding. -/
def Payload.to_bytes (p : Payload) : List Nat :=
  SYNC0 :: SYNC1 :: p.code ::
    encNum p.pfwd :: p.pfwd.den :: encNum p.sfwd :: p.sfwd.den ::
    encNum p.paft :: p.paft.den :: encNum p.saft :: p.saft.den ::
    p.chk :: List.replicate 11 0

/-- Modelled from the spec: Payload.from_bytes decodes a frame, failing
with the distinguished bad-sync-header ValueError when the header marker
does not match, and with a different ValueError for any other corruption
(bad checksum, undecodable field, wrong shape). -/
def Payload.from_bytes (bs : List Nat) : Except PyErr Payload :=
  match bs with
  | b0 :: b1 :: c :: a1 :: d1 :: a2 :: d2 :: a3 :: d3 :: a4 :: d4 :: k :: rest =>
    if b0 = SYNC0 ∧ b1 = SYNC1 then
      if rest.length = 11 ∧ k = (c + a1 + d1 + a2 + d2 + a3 + d3 + a4 + d4) % 256 then
        match decodeQ a1 d1, decodeQ a2 d2, decodeQ a3 d3, decodeQ a4 d4 with
        | some q1, some q2, some q3, some q4 => .ok ⟨c, q1, q2, q3, q4⟩
        | _, _, _, _ => .error .valueErrorOther
      else .error .valueErrorOther
    else .error .valueErrorSync
  | _ => .error .valueErrorOther

theorem decInt_encInt (z : ℤ) : decInt (encInt z) = z := by
  unfold decInt encInt
  rcases lt_or_le z 0 with h | h
  · have ha : z.natAbs = (-z).toNat := by omega
    rw [if_pos h, ha]
    have h1 : (2 * (-z).toNat - 1) % 2 = 1 := by omega
    rw [if_pos h1]
    omega
  · rw [if_neg (not_lt.mpr h)]
    have h1 : 2 * z.natAbs % 2 = 1 → False := by omega
    rw [if_neg h1]
    omega

theorem decodeQ_encNum (q : ℚ) : decodeQ (encNum q) q.den = some q := by
  unfold decodeQ encNum
  rw [if_neg q.den_nz, decInt_encInt, Rat.mkRat_self]

theorem from_bytes_to_bytes (p : Payload) :
    Payload.from_bytes p.to_bytes = .ok p := by
  simp [Payload.to_bytes, Payload.from_bytes, Payload.chk, decodeQ_encNum]

theorem length_to_bytes (p : Payload) : p.to_bytes.length = Payload.PACKET_SIZE := by
  simp [Payload.to_bytes, Payload.PACKET_SIZE]

/-- Motor controller state (src/upy/motor_controller.py). The enabled and
closed flags come from the Component base class, which is external to the
repository and modelled from the spec as a lifecycle state with no
transitions out of Closed. -/
structure MotorController where
  enabled : Bool
  closed : Bool
  pfwd : ℚ
  sfwd : ℚ
  paft : ℚ
  saft : ℚ
deriving DecidableEq

/-- Constructor state: Component.__init__ is called with enabled=False and
all four speeds are set to zero. -/
def MotorController.init : MotorController :=
  { enabled := false, closed := false, pfwd := 0, sfwd := 0, paft := 0, saft := 0 }

def MotorController.get_speeds (m : MotorController) : ℚ × ℚ × ℚ × ℚ :=
  (m.pfwd, m.sfwd, m.paft, m.saft)

/-- stop: if not enabled return FAIL with no change, else zero all four
values and return OKAY. -/
def MotorController.stop (m : MotorController) : Response × MotorController :=
  if !m.enabled then (.FAIL, m)
  else (.OKAY, { m with pfwd := 0, sfwd := 0, paft := 0, saft := 0 })

/-- go: if not enabled return FAIL with no change, else set the four values
verbatim and return OKAY. -/
def MotorController.go (m : MotorController) (pfwd sfwd paft saft : ℚ) :
    Response × MotorController :=
  if !m.enabled then (.FAIL, m)
  else (.OKAY, { m with pfwd := pfwd, sfwd := sfwd, paft := paft, saft := saft })

/-- Modelled from the spec: Component.enable of the missing base class;
Closed is terminal ("no transitions out"), so enabling a closed component
is a no-op; otherwise it sets the enabled flag. -/
def MotorController.componentEnable (m : MotorController) : MotorController :=
  if m.closed then m else { m with enabled := true }

/-- Modelled from the spec: Component.disable of the missing base class
clears the enabled flag. -/
def MotorController.componentDisable (m : MotorController) : MotorController :=
  { m with enabled := false }

/-- Modelled from the spec: Component.close of the missing base class marks
the component permanently closed. -/
def MotorController.componentClose (m : MotorController) : MotorController :=
  { m with closed := true }

/-- enable: guarded call to Component.enable (no-op if already enabled). -/
def MotorController.enable (m : MotorController) : MotorController :=
  if !m.enabled then m.componentEnable else m

/-- disable: if enabled, first stop() (which zeroes the speeds, since the
controller is still enabled at that point) and then Component.disable. -/
def MotorController.disable (m : MotorController) : MotorController :=
  if m.enabled then ((m.stop).2).componentDisable else m

/-- close: if not closed, disable then Component.close. -/
def MotorController.close (m : MotorController) : MotorController :=
  if !m.closed then (m.disable).componentClose else m

/-- Operations a caller can invoke on the motor controller (the alphabet of
claim C5's reachable-state induction). -/
inductive MotorOp
  | stop
  | go (pfwd sfwd paft saft : ℚ)
  | enable
  | disable
  | close

def MotorController.applyOp (m : MotorController) : MotorOp → MotorController
  | .stop => (m.stop).2
  | .go p s a t => (m.go p s a t).2
  | .enable => m.enable
  | .disable => m.disable
  | .close => m.close

def MotorController.runOps (m : MotorController) : List MotorOp → MotorController
  | [] => m
  | op :: ops => (m.applyOp op).runOps ops

/-- Log severities of the Logger collaborator (modelled from the spec: the
logger itself is external; only the severity at which the engine emits each
entry matters to the claims). -/
inductive Severity
  | debug
  | info
  | warning
  | error
deriving DecidableEq

/-- Memory map constants of I2CSlave. -/
def CMD_OFFSET : Nat := 0

def RSP_OFFSET : Nat := Payload.PACKET_SIZE

def MEMORY_SIZE : Nat := 2 * Payload.PACKET_SIZE

/-- Python slice assignment mem[off:off+data.length] = data on the shared
buffer. -/
def writeSlice (mem : List Nat) (off : Nat) (data : List Nat) : List Nat :=
  mem.take off ++ data ++ mem.drop (off + data.length)

def cmdWindow (mem : List Nat) : List Nat :=
  (mem.drop CMD_OFFSET).take Payload.PACKET_SIZE

def rspWindow (mem : List Nat) : List Nat :=
  (mem.drop RSP_OFFSET).take Payload.PACKET_SIZE

/-- State of the I2C slave protocol engine (src/upy/i2c_slave.py). memLog
records the shared buffer after every mutation the engine performs on it
(instrumentation for the race-avoidance claim); logs records the severity
of every log emission. -/
structure I2CSlave where
  mem : List Nat
  memLog : List (List Nat)
  motor : MotorController
  tx_count : Nat
  led : Bool
  debug : Bool
  logs : List Severity
deriving DecidableEq

def I2CSlave.log (st : I2CSlave) (s : Severity) : I2CSlave :=
  { st with logs := st.logs ++ [s] }

/-- Write data into the shared buffer at off, recording the new buffer
contents in the instrumentation trace. -/
def I2CSlave.write (st : I2CSlave) (off : Nat) (data : List Nat) : I2CSlave :=
  let mem := writeSlice st.mem off data
  { st with mem := mem, memLog := st.memLog ++ [mem] }

/-- Fault-injection oracle for the unexpected-exception paths of the IRQ
handler: no fault, an unexpected (non-ValueError) exception raised while
decoding, one raised at dispatch, or one raised inside send_response before
the slice assignment (in the source the whole body of send_response sits in
its own try/except, so such a fault is swallowed there). -/
inductive Fault
  | noFault
  | inDecode
  | inDispatch
  | inSend
deriving DecidableEq

def Fault.sendFault : Fault → Bool
  | .inSend => true
  | _ => false

/-- send_response (src/upy/i2c_slave.py lines 157-175): builds the response
Payload, encodes it and writes it into the response window with one slice
assignment; its whole body is wrapped in try/except, so a fault raised
inside it (modelled as firing before the slice assignment) is caught and
logged at error severity, with nothing written. The isinstance TypeError
guard is unrepresentable here because the command argument is typed. The
post-write hardware-commit hold (time.sleep_us) has no logical effect. -/
def I2CSlave.send_response (st : I2CSlave) (c : Command)
    (pfwd sfwd paft saft : ℚ) (sendFault : Bool) : I2CSlave :=
  if sendFault then st.log .error
  else st.write RSP_OFFSET (Payload.mk' c pfwd sfwd paft saft).to_bytes

/-- handle_ping: respond to PING with fixed echo values 0.3 (written as the
rational three tenths). -/
def I2CSlave.handle_ping (st : I2CSlave) (sf : Bool) : I2CSlave :=
  st.send_response .PING (mkRat 3 10) (mkRat 3 10) (mkRat 3 10) (mkRat 3 10) sf

/-- handle_stop: stop the motors; on OKAY answer ACK with the (zeroed)
speeds, on FAIL answer ERROR with zero fields. -/
def I2CSlave.handle_stop (st : I2CSlave) (sf : Bool) : I2CSlave :=
  let (r, m) := st.motor.stop
  let st := { st with motor := m }
  match r with
  | .OKAY => st.send_response .ACK m.pfwd m.sfwd m.paft m.saft sf
  | .FAIL => st.send_response .ERROR 0 0 0 0 sf

/-- handle_go: set the motor speeds from the payload; on OKAY answer ACK
with the resulting speeds, on FAIL answer ERROR with zero fields. -/
def I2CSlave.handle_go (st : I2CSlave) (p : Payload) (sf : Bool) : I2CSlave :=
  let (r, m) := st.motor.go p.pfwd p.sfwd p.paft p.saft
  let st := { st with motor := m }
  match r with
  | .OKAY => st.send_response .ACK m.pfwd m.sfwd m.paft m.saft sf
  | .FAIL => st.send_response .ERROR 0 0 0 0 sf

/-- handle_request: log (unconditional info) and answer RESPONSE with the
current speeds. -/
def I2CSlave.handle_request (st : I2CSlave) (sf : Bool) : I2CSlave :=
  let st := st.log .info
  st.send_response .RESPONSE st.motor.pfwd st.motor.sfwd st.motor.paft st.motor.saft sf

/-- handle_enable: log info, enable the motor controller, answer ACK with
zero fields. -/
def I2CSlave.handle_enable (st : I2CSlave) (sf : Bool) : I2CSlave :=
  let st := st.log .info
  let st := { st with motor := st.motor.enable }
  st.send_response .ACK 0 0 0 0 sf

/-- handle_disable: log info, disable the motor controller, answer ACK with
zero fields. -/
def I2CSlave.handle_disable (st : I2CSlave) (sf : Bool) : I2CSlave :=
  let st := st.log .info
  let st := { st with motor := st.motor.disable }
  st.send_response .ACK 0 0 0 0 sf

/-- handle_error (lines 243-252): logs the error message AT ERROR SEVERITY
and sends an ERROR response with the numeric error code in the first
field. -/
def I2CSlave.handle_error (st : I2CSlave) (code : Nat) (sf : Bool) : I2CSlave :=
  let st := st.log .error
  st.send_response .ERROR (code : ℚ) 0 0 0 sf

/-- Dispatch of a successfully decoded payload by verb (lines 120-134);
verbs outside the six inbound ones, and unrecognized codes, fall through to
the unknown-command error with code 1. -/
def I2CSlave.dispatch (st : I2CSlave) (p : Payload) (sf : Bool) : I2CSlave :=
  match Command.from_code p.code with
  | some .PING => st.handle_ping sf
  | some .STOP => st.handle_stop sf
  | some .GO => st.handle_go p sf
  | some .REQUEST => st.handle_request sf
  | some .ENABLE => st.handle_enable sf
  | some .DISABLE => st.handle_disable sf
  | _ => st.handle_error 1 sf

/-- Post-dispatch bookkeeping of the try block (lines 135-136): increment
the transaction counter and toggle the activity LED. -/
def I2CSlave.bump (st : I2CSlave) : I2CSlave :=
  { st with tx_count := st.tx_count + 1, led := !st.led }

/-- Debug-gated receive log (lines 117-118). -/
def I2CSlave.dbgStep (st : I2CSlave) : I2CSlave :=
  if st.debug then st.log .debug else st

/-- Body of the try block of the IRQ handler's end-of-write branch (lines
113-136): read the command window, decode it (a fault oracle may turn the
decode into an unexpected exception), dispatch, then increment the
transaction counter and toggle the LED. A raised exception is the error
value; it is recovered by the except clauses in irq_end_write. -/
def I2CSlave.try_body (st : I2CSlave) (fault : Fault) : Except PyErr I2CSlave :=
  let cmd_bytes := cmdWindow st.mem
  match (if fault = .inDecode then .error .exception else Payload.from_bytes cmd_bytes :
      Except PyErr Payload) with
  | .error e => .error e
  | .ok p =>
    let st := st.dbgStep
    if fault = .inDispatch then .error .exception
    else .ok (st.dispatch p fault.sendFault).bump

/-- End-of-write branch of the IRQ handler (lines 109-151): first zero the
entire response window (line 111, before the try block), then run the try
body; a ValueError whose message contains the bad-sync-header text is
recovered with a warning log and error code 3, any other ValueError with an
error log and code 2, and any other exception with an error log and code 4.
Every except clause recovers, so the handler never propagates a fault. -/
def I2CSlave.irq_end_write (st : I2CSlave) (fault : Fault) : I2CSlave :=
  let st1 := st.write RSP_OFFSET (List.replicate Payload.PACKET_SIZE 0)
  match st1.try_body fault with
  | .ok st2 => st2
  | .error .valueErrorSync => (st1.log .warning).handle_error 3 fault.sendFault
  | .error .valueErrorOther => (st1.log .error).handle_error 2 fault.sendFault
  | .error .exception => (st1.log .error).handle_error 4 fault.sendFault

/-- Constructor state of I2CSlave (lines 38-70): a fresh zero buffer of
MEMORY_SIZE cells, a freshly constructed motor controller, zero transaction
count, debug off, and the response window pre-loaded with a default ACK
response via send_response. Logger info emissions during construction are
omitted. -/
def I2CSlave.init : I2CSlave :=
  let st : I2CSlave :=
    { mem := List.replicate MEMORY_SIZE 0, memLog := [], motor := .init,
      tx_count := 0, led := false, debug := false, logs := [] }
  st.send_response .ACK 0 0 0 0 false

/-- Master-write step: the bus master deposits a command frame into the
command window (this is done by the hardware transport, not the engine, so
it is not recorded in the engine's write instrumentation). -/
def I2CSlave.masterWrite (st : I2CSlave) (p : Payload) : I2CSlave :=
  { st with mem := writeSlice st.mem CMD_OFFSET p.to_bytes }

theorem take_append_of_length {α} (l₁ l₂ : List α) {n} (h : l₁.length = n) :
    (l₁ ++ l₂).take n = l₁ := by
  subst h; simp

theorem drop_append_of_length {α} (l₁ l₂ : List α) {n} (h : l₁.length = n) :
    (l₁ ++ l₂).drop n = l₂ := by
  subst h; simp

theorem length_take_of_le {α} (l : List α) {n} (h : n ≤ l.length) :
    (l.take n).length = n := by
  simp [List.length_take]; omega

theorem writeSlice_rsp_eq (m d : List Nat) (hm : m.length = MEMORY_SIZE)
    (hd : d.length = Payload.PACKET_SIZE) :
    writeSlice m RSP_OFFSET d = m.take 23 ++ d := by
  simp only [writeSlice, RSP_OFFSET, MEMORY_SIZE, Payload.PACKET_SIZE] at *
  rw [hd, List.drop_eq_nil_of_le (le_of_eq hm), List.append_nil]

theorem length_writeSlice_rsp (m d : List Nat) (hm : m.length = MEMORY_SIZE)
    (hd : d.length = Payload.PACKET_SIZE) :
    (writeSlice m RSP_OFFSET d).length = MEMORY_SIZE := by
  rw [writeSlice_rsp_eq m d hm hd]
  simp only [MEMORY_SIZE, Payload.PACKET_SIZE] at *
  simp [hm, hd]

theorem cmdWindow_writeSlice_rsp (m d : List Nat) (hm : m.length = MEMORY_SIZE)
    (hd : d.length = Payload.PACKET_SIZE) :
    cmdWindow (writeSlice m RSP_OFFSET d) = cmdWindow m := by
  rw [writeSlice_rsp_eq m d hm hd]
  simp only [cmdWindow, CMD_OFFSET, MEMORY_SIZE, Payload.PACKET_SIZE, List.drop_zero] at *
  simp [List.take_append_eq_append_take, hm]

theorem rspWindow_writeSlice_rsp (m d : List Nat) (hm : m.length = MEMORY_SIZE)
    (hd : d.length = Payload.PACKET_SIZE) :
    rspWindow (writeSlice m RSP_OFFSET d) = d := by
  rw [writeSlice_rsp_eq m d hm hd]
  simp only [rspWindow, RSP_OFFSET, MEMORY_SIZE, Payload.PACKET_SIZE] at *
  simp [List.drop_append_eq_append_drop, hm, hd, List.take_append_eq_append_take]

theorem writeSlice_cmd_eq (m d : List Nat) (hd : d.length = Payload.PACKET_SIZE) :
    writeSlice m CMD_OFFSET d = d ++ m.drop 23 := by
  simp only [writeSlice, CMD_OFFSET, Payload.PACKET_SIZE] at *
  rw [hd, List.take_zero, List.nil_append, Nat.zero_add]

theorem length_writeSlice_cmd (m d : List Nat) (hm : m.length = MEMORY_SIZE)
    (hd : d.length = Payload.PACKET_SIZE) :
    (writeSlice m CMD_OFFSET d).length = MEMORY_SIZE := by
  rw [writeSlice_cmd_eq m d hd]
  simp only [MEMORY_SIZE, Payload.PACKET_SIZE] at *
  simp [hm, hd]

theorem cmdWindow_writeSlice_cmd (m d : List Nat) (hd : d.length = Payload.PACKET_SIZE) :
    cmdWindow (writeSlice m CMD_OFFSET d) = d := by
  rw [writeSlice_cmd_eq m d hd]
  simp only [cmdWindow, CMD_OFFSET, Payload.PACKET_SIZE, List.drop_zero] at *
  simp [List.take_append_eq_append_take, hd]

theorem rspWindow_writeSlice_cmd (m d : List Nat) (hd : d.length = Payload.PACKET_SIZE) :
    rspWindow (writeSlice m CMD_OFFSET d) = rspWindow m := by
  rw [writeSlice_cmd_eq m d hd]
  simp only [rspWindow, RSP_OFFSET, Payload.PACKET_SIZE] at *
  simp [List.drop_append_eq_append_drop, hd]

@[simp] theorem log_mem (st : I2CSlave) (s : Severity) : (st.log s).mem = st.mem := rfl

@[simp] theorem log_memLog (st : I2CSlave) (s : Severity) : (st.log s).memLog = st.memLog := rfl

@[simp] theorem log_motor (st : I2CSlave) (s : Severity) : (st.log s).motor = st.motor := rfl

@[simp] theorem log_tx (st : I2CSlave) (s : Severity) : (st.log s).tx_count = st.tx_count := rfl

@[simp] theorem log_led (st : I2CSlave) (s : Severity) : (st.log s).led = st.led := rfl

@[simp] theorem log_debug (st : I2CSlave) (s : Severity) : (st.log s).debug = st.debug := rfl

@[simp] theorem write_mem (st : I2CSlave) (off : Nat) (d : List Nat) :
    (st.write off d).mem = writeSlice st.mem off d := rfl

@[simp] theorem write_memLog (st : I2CSlave) (off : Nat) (d : List Nat) :
    (st.write off d).memLog = st.memLog ++ [writeSlice st.mem off d] := rfl

@[simp] theorem write_motor (st : I2CSlave) (off : Nat) (d : List Nat) :
    (st.write off d).motor = st.motor := rfl

@[simp] theorem write_tx (st : I2CSlave) (off : Nat) (d : List Nat) :
    (st.write off d).tx_count = st.tx_count := rfl

@[simp] theorem write_led (st : I2CSlave) (off : Nat) (d : List Nat) :
    (st.write off d).led = st.led := rfl

@[simp] theorem write_debug (st : I2CSlave) (off : Nat) (d : List Nat) :
    (st.write off d).debug = st.debug := rfl

@[simp] theorem write_logs (st : I2CSlave) (off : Nat) (d : List Nat) :
    (st.write off d).logs = st.logs := rfl

@[simp] theorem dbgStep_mem (st : I2CSlave) : st.dbgStep.mem = st.mem := by
  unfold I2CSlave.dbgStep; split <;> rfl

@[simp] theorem dbgStep_memLog (st : I2CSlave) : st.dbgStep.memLog = st.memLog := by
  unfold I2CSlave.dbgStep; split <;> rfl

@[simp] theorem dbgStep_motor (st : I2CSlave) : st.dbgStep.motor = st.motor := by
  unfold I2CSlave.dbgStep; split <;> rfl

@[simp] theorem dbgStep_tx (st : I2CSlave) : st.dbgStep.tx_count = st.tx_count := by
  unfold I2CSlave.dbgStep; split <;> rfl

@[simp] theorem dbgStep_led (st : I2CSlave) : st.dbgStep.led = st.led := by
  unfold I2CSlave.dbgStep; split <;> rfl

@[simp] theorem bump_mem (st : I2CSlave) : st.bump.mem = st.mem := rfl

@[simp] theorem bump_memLog (st : I2CSlave) : st.bump.memLog = st.memLog := rfl

@[simp] theorem bump_motor (st : I2CSlave) : st.bump.motor = st.motor := rfl

@[simp] theorem bump_tx (st : I2CSlave) : st.bump.tx_count = st.tx_count + 1 := rfl

@[simp] theorem bump_led (st : I2CSlave) : st.bump.led = !st.led := rfl

/-- Response frame the dispatch publishes, as a function of the motor state
and the decoded command payload (the table of section 4.1 of the spec, read
off from the handlers). -/
def rspPayload (m : MotorController) (p : Payload) : Payload :=
  match Command.from_code p.code with
  | some .PING => .mk' .PING (mkRat 3 10) (mkRat 3 10) (mkRat 3 10) (mkRat 3 10)
  | some .STOP => if m.enabled then .mk' .ACK 0 0 0 0 else .mk' .ERROR 0 0 0 0
  | some .GO => if m.enabled then .mk' .ACK p.pfwd p.sfwd p.paft p.saft
      else .mk' .ERROR 0 0 0 0
  | some .REQUEST => .mk' .RESPONSE m.pfwd m.sfwd m.paft m.saft
  | some .ENABLE => .mk' .ACK 0 0 0 0
  | some .DISABLE => .mk' .ACK 0 0 0 0
  | _ => .mk' .ERROR ((1 : Nat) : ℚ) 0 0 0

/-- Motor-controller transition the dispatch performs, as a function of the
decoded command payload. -/
def motorStep (m : MotorController) (p : Payload) : MotorController :=
  match Command.from_code p.code with
  | some .STOP => (m.stop).2
  | some .GO => (m.go p.pfwd p.sfwd p.paft p.saft).2
  | some .ENABLE => m.enable
  | some .DISABLE => m.disable
  | _ => m

/-- Dispatch characterized on every state component except the log: it
steps the motor controller, performs exactly one response-window write
(none when the response write faults), and touches neither the counter,
the LED, the debug flag nor the command window. -/
theorem dispatch_spec (st : I2CSlave) (p : Payload) (sf : Bool) :
    (st.dispatch p sf).motor = motorStep st.motor p
    ∧ (st.dispatch p sf).mem =
        (if sf then st.mem
          else writeSlice st.mem RSP_OFFSET (rspPayload st.motor p).to_bytes)
    ∧ (st.dispatch p sf).memLog =
        (if sf then st.memLog
          else st.memLog ++ [writeSlice st.mem RSP_OFFSET (rspPayload st.motor p).to_bytes])
    ∧ (st.dispatch p sf).tx_count = st.tx_count
    ∧ (st.dispatch p sf).led = st.led
    ∧ (st.dispatch p sf).debug = st.debug := by
  unfold I2CSlave.dispatch rspPayload motorStep
  rcases hc : Command.from_code p.code with _ | c
  · cases sf <;>
      simp [I2CSlave.handle_error, I2CSlave.send_response, I2CSlave.log, I2CSlave.write]
  · cases c <;> cases sf <;>
      cases hen : st.motor.enabled <;>
      simp [I2CSlave.handle_ping, I2CSlave.handle_stop, I2CSlave.handle_go,
        I2CSlave.handle_request, I2CSlave.handle_enable, I2CSlave.handle_disable,
        I2CSlave.handle_error, I2CSlave.send_response, I2CSlave.log, I2CSlave.write,
        MotorController.stop, MotorController.go, hen]

/-- Clearing the response window leaves the command window intact. -/
theorem cmdWindow_clear (m : List Nat) (hm : m.length = MEMORY_SIZE) :
    cmdWindow (writeSlice m RSP_OFFSET (List.replicate Payload.PACKET_SIZE 0)) = cmdWindow m :=
  cmdWindow_writeSlice_rsp m _ hm (by simp [Payload.PACKET_SIZE])

/-- Clearing the response window leaves the buffer size intact. -/
theorem length_clear (m : List Nat) (hm : m.length = MEMORY_SIZE) :
    (writeSlice m RSP_OFFSET (List.replicate Payload.PACKET_SIZE 0)).length = MEMORY_SIZE :=
  length_writeSlice_rsp m _ hm (by simp [Payload.PACKET_SIZE])

/-- Clearing the response window indeed zeroes it. -/
theorem rspWindow_clear (m : List Nat) (hm : m.length = MEMORY_SIZE) :
    rspWindow (writeSlice m RSP_OFFSET (List.replicate Payload.PACKET_SIZE 0)) =
      List.replicate Payload.PACKET_SIZE 0 :=
  rspWindow_writeSlice_rsp m _ hm (by simp [Payload.PACKET_SIZE])

/-- When the command window decodes to p and no decode/dispatch fault is
injected, the end-of-write handler is the clear step followed by dispatch
and the counter/LED bookkeeping. -/
theorem irq_run_decode_ok (st : I2CSlave) (p : Payload) (fault : Fault)
    (hok : Payload.from_bytes (cmdWindow st.mem) = .ok p)
    (hm : st.mem.length = MEMORY_SIZE)
    (hf1 : fault ≠ .inDecode) (hf2 : fault ≠ .inDispatch) :
    st.irq_end_write fault =
      (((st.write RSP_OFFSET (List.replicate Payload.PACKET_SIZE 0)).dbgStep).dispatch
        p fault.sendFault).bump := by
  simp only [I2CSlave.irq_end_write, I2CSlave.try_body, write_mem,
    cmdWindow_clear st.mem hm, if_neg hf1, hok, if_neg hf2]

/-- Severity of the log entry the except clause of the IRQ handler emits
for each exception kind (warning for the benign sync-header case, error
otherwise). -/
def errSeverity : PyErr → Severity
  | .valueErrorSync => .warning
  | _ => .error

/-- Error code the except clause answers with for each exception kind. -/
def errCode : PyErr → Nat
  | .valueErrorSync => 3
  | .valueErrorOther => 2
  | .exception => 4

/-- When the decode step raises (a ValueError from the codec, or an
injected unexpected exception), the handler runs the matching except
clause: a severity and an error code determined by the exception kind. -/
theorem irq_run_decode_err (st : I2CSlave) (e : PyErr) (fault : Fault)
    (herr : (if fault = .inDecode then .error .exception
      else Payload.from_bytes (cmdWindow st.mem) : Except PyErr Payload) = .error e)
    (hm : st.mem.length = MEMORY_SIZE) :
    st.irq_end_write fault =
      ((st.write RSP_OFFSET (List.replicate Payload.PACKET_SIZE 0)).log
        (errSeverity e)).handle_error (errCode e) fault.sendFault := by
  simp only [I2CSlave.irq_end_write, I2CSlave.try_body, write_mem,
    cmdWindow_clear st.mem hm, herr]
  cases e <;> rfl

/-- handle_error characterized: one error-severity log emission, one
response-window write of an ERROR frame with the code in the first field
(no write when the response write faults, which adds a second error log
from inside send_response), and no other state change. -/
theorem handle_error_spec (st : I2CSlave) (k : Nat) (sf : Bool) :
    (st.handle_error k sf).motor = st.motor
    ∧ (st.handle_error k sf).mem =
        (if sf then st.mem
          else writeSlice st.mem RSP_OFFSET (Payload.mk' .ERROR (k : ℚ) 0 0 0).to_bytes)
    ∧ (st.handle_error k sf).memLog =
        (if sf then st.memLog
          else st.memLog ++ [writeSlice st.mem RSP_OFFSET (Payload.mk' .ERROR (k : ℚ) 0 0 0).to_bytes])
    ∧ (st.handle_error k sf).tx_count = st.tx_count
    ∧ (st.handle_error k sf).led = st.led
    ∧ (st.handle_error k sf).logs =
        st.logs ++ [Severity.error] ++ (if sf then [Severity.error] else []) := by
  cases sf <;>
    simp [I2CSlave.handle_error, I2CSlave.send_response, I2CSlave.log, I2CSlave.write]

/-- When the command window decodes but the dispatch step raises the
injected unexpected exception, the handler runs the catch-all except
clause: error log and internal-fault error code 4. -/
theorem irq_run_dispatch_fault (st : I2CSlave) (p : Payload)
    (hok : Payload.from_bytes (cmdWindow st.mem) = .ok p)
    (hm : st.mem.length = MEMORY_SIZE) :
    st.irq_end_write .inDispatch =
      ((st.write RSP_OFFSET (List.replicate Payload.PACKET_SIZE 0)).log
        Severity.error).handle_error 4 false := by
  simp only [I2CSlave.irq_end_write, I2CSlave.try_body, write_mem,
    cmdWindow_clear st.mem hm, hok]
  rfl

/-- End-to-end lemma: the master writes frame p and the end-of-write event
is processed without injected faults; the motor steps according to the
verb, the response window afterwards holds the published frame of the
dispatch table, the buffer size is preserved, the transaction counter is
incremented and the LED toggled. -/
theorem irq_run_frame (st : I2CSlave) (p : Payload) (hm : st.mem.length = MEMORY_SIZE) :
    ((st.masterWrite p).irq_end_write .noFault).motor = motorStep st.motor p
    ∧ rspWindow ((st.masterWrite p).irq_end_write .noFault).mem =
        (rspPayload st.motor p).to_bytes
    ∧ ((st.masterWrite p).irq_end_write .noFault).mem.length = MEMORY_SIZE
    ∧ ((st.masterWrite p).irq_end_write .noFault).tx_count = st.tx_count + 1
    ∧ ((st.masterWrite p).irq_end_write .noFault).led = !st.led := by
  have hm' : (st.masterWrite p).mem.length = MEMORY_SIZE :=
    length_writeSlice_cmd st.mem p.to_bytes hm (length_to_bytes p)
  have hok : Payload.from_bytes (cmdWindow (st.masterWrite p).mem) = .ok p := by
    show Payload.from_bytes (cmdWindow (writeSlice st.mem CMD_OFFSET p.to_bytes)) = .ok p
    rw [cmdWindow_writeSlice_cmd st.mem p.to_bytes (length_to_bytes p), from_bytes_to_bytes]
  rw [irq_run_decode_ok (st.masterWrite p) p .noFault hok hm'
    (by decide) (by decide)]
  obtain ⟨hmot, hmem, _, htx, hled, _⟩ :=
    dispatch_spec ((st.masterWrite p).write RSP_OFFSET
      (List.replicate Payload.PACKET_SIZE 0)).dbgStep p Fault.noFault.sendFault
  have hclr : ((st.masterWrite p).write RSP_OFFSET
      (List.replicate Payload.PACKET_SIZE 0)).dbgStep.mem.length = MEMORY_SIZE := by
    rw [dbgStep_mem, write_mem]
    exact length_clear _ hm'
  refine ⟨?_, ?_, ?_, ?_, ?_⟩
  · rw [bump_motor, hmot, dbgStep_motor, write_motor]
    rfl
  · rw [bump_mem, hmem]
    show rspWindow (writeSlice _ RSP_OFFSET _) = _
    rw [rspWindow_writeSlice_rsp _ _ hclr (length_to_bytes _), dbgStep_motor, write_motor]
    rfl
  · rw [bump_mem, hmem]
    show (writeSlice _ RSP_OFFSET _).length = MEMORY_SIZE
    exact length_writeSlice_rsp _ _ hclr (length_to_bytes _)
  · rw [bump_tx, htx, dbgStep_tx, write_tx]
    rfl
  · rw [bump_led, hled, dbgStep_led, write_led]
    rfl

/-- Concrete state whose command window holds non-protocol all-zero bytes,
as deposited by a bus-scanning probe: its sync header does not match. -/
def probe : I2CSlave := { I2CSlave.init with mem := List.replicate MEMORY_SIZE 0 }

/-- Concrete state whose command window holds a PING frame. -/
def pingSample : I2CSlave := I2CSlave.init.masterWrite (Payload.mk' .PING 0 0 0 0)

/-- C8: writing a response via send_response modifies only the response
window: for every buffer state of MEMORY_SIZE cells and every response
frame, the command window reads identically before and after, and the
buffer size is unchanged (so no cell outside the response window moves). -/
theorem c8_send_response_only_response_window (st : I2CSlave) (c : Command)
    (f1 f2 f3 f4 : ℚ) (sf : Bool) (h : st.mem.length = MEMORY_SIZE) :
    cmdWindow (st.send_response c f1 f2 f3 f4 sf).mem = cmdWindow st.mem
    ∧ (st.send_response c f1 f2 f3 f4 sf).mem.length = MEMORY_SIZE := by
  cases sf
  · exact ⟨cmdWindow_writeSlice_rsp st.mem _ h (length_to_bytes _),
      length_writeSlice_rsp st.mem _ h (length_to_bytes _)⟩
  · exact ⟨rfl, h⟩

theorem c8_witness :
    cmdWindow (I2CSlave.init.send_response .ACK 0 0 0 0 false).mem = cmdWindow I2CSlave.init.mem
    ∧ (I2CSlave.init.send_response .ACK 0 0 0 0 false).mem.length = MEMORY_SIZE :=
  c8_send_response_only_response_window I2CSlave.init .ACK 0 0 0 0 false (by decide)

/-- C9: a PING command (whatever its field values) performs no motor
action and is answered with a PING frame carrying the fixed echo values
(0.3, 0.3, 0.3, 0.3). -/
theorem c9_ping_fixed_echo (st : I2CSlave) (f1 f2 f3 f4 : ℚ)
    (h : st.mem.length = MEMORY_SIZE) :
    ((st.masterWrite (Payload.mk' .PING f1 f2 f3 f4)).irq_end_write .noFault).motor = st.motor
    ∧ rspWindow ((st.masterWrite (Payload.mk' .PING f1 f2 f3 f4)).irq_end_write .noFault).mem
      = (Payload.mk' .PING (mkRat 3 10) (mkRat 3 10) (mkRat 3 10) (mkRat 3 10)).to_bytes := by
  obtain ⟨h1, h2, _, _, _⟩ := irq_run_frame st (Payload.mk' .PING f1 f2 f3 f4) h
  exact ⟨by rw [h1]; rfl, by rw [h2]; rfl⟩

theorem c9_witness :
    ((I2CSlave.init.masterWrite (Payload.mk' .PING 0 0 0 0)).irq_end_write
        .noFault).motor = I2CSlave.init.motor
    ∧ rspWindow ((I2CSlave.init.masterWrite (Payload.mk' .PING 0 0 0 0)).irq_end_write
        .noFault).mem
      = (Payload.mk' .PING (mkRat 3 10) (mkRat 3 10) (mkRat 3 10) (mkRat 3 10)).to_bytes :=
  c9_ping_fixed_echo I2CSlave.init 0 0 0 0 (by decide)

/-- C10: immediately after construction the response window holds a fully
encoded ACK frame with zero fields: it equals the encoding of that frame,
it decodes back to it, and it is not the all-zero cell pattern. -/
theorem c10_initial_ack_frame :
    rspWindow I2CSlave.init.mem = (Payload.mk' .ACK 0 0 0 0).to_bytes
    ∧ (Payload.from_bytes (rspWindow I2CSlave.init.mem)).toOption
        = some (Payload.mk' .ACK 0 0 0 0)
    ∧ rspWindow I2CSlave.init.mem ≠ List.replicate Payload.PACKET_SIZE 0 := by
  decide

/-- One motor-controller operation preserves the invariant that a disabled
controller stores only zero speeds. -/
theorem applyOp_inv (m : MotorController) (op : MotorOp)
    (h : m.enabled = false → m.pfwd = 0 ∧ m.sfwd = 0 ∧ m.paft = 0 ∧ m.saft = 0) :
    (m.applyOp op).enabled = false →
      (m.applyOp op).pfwd = 0 ∧ (m.applyOp op).sfwd = 0
        ∧ (m.applyOp op).paft = 0 ∧ (m.applyOp op).saft = 0 := by
  cases op <;>
    cases hen : m.enabled <;>
    simp [MotorController.applyOp, MotorController.stop, MotorController.go,
      MotorController.enable, MotorController.disable, MotorController.close,
      MotorController.componentEnable, MotorController.componentDisable,
      MotorController.componentClose, hen, h] <;>
    split <;>
    simp_all

/-- Running any operation sequence preserves the invariant. -/
theorem runOps_inv (ops : List MotorOp) (m : MotorController)
    (h : m.enabled = false → m.pfwd = 0 ∧ m.sfwd = 0 ∧ m.paft = 0 ∧ m.saft = 0) :
    (m.runOps ops).enabled = false →
      (m.runOps ops).pfwd = 0 ∧ (m.runOps ops).sfwd = 0
        ∧ (m.runOps ops).paft = 0 ∧ (m.runOps ops).saft = 0 := by
  induction ops generalizing m with
  | nil => exact h
  | cons op ops ih => exact ih (m.applyOp op) (applyOp_inv m op h)

/-- C5: in every state reachable from construction by stop, go, enable,
disable and close operations, a disabled controller stores only zero
speeds; in particular re-enabling alone never yields nonzero speeds. -/
theorem c5_disabled_implies_zero_speeds (ops : List MotorOp) :
    (MotorController.init.runOps ops).enabled = false →
      (MotorController.init.runOps ops).pfwd = 0
        ∧ (MotorController.init.runOps ops).sfwd = 0
        ∧ (MotorController.init.runOps ops).paft = 0
        ∧ (MotorController.init.runOps ops).saft = 0 :=
  runOps_inv ops MotorController.init (by intro; exact ⟨rfl, rfl, rfl, rfl⟩)

theorem c5_witness :
    (MotorController.init.runOps
        [MotorOp.enable, MotorOp.go 1 2 3 4, MotorOp.disable]).enabled = false
    ∧ ((MotorController.init.runOps
          [MotorOp.enable, MotorOp.go 1 2 3 4, MotorOp.disable]).pfwd = 0
        ∧ (MotorController.init.runOps
            [MotorOp.enable, MotorOp.go 1 2 3 4, MotorOp.disable]).sfwd = 0
        ∧ (MotorController.init.runOps
            [MotorOp.enable, MotorOp.go 1 2 3 4, MotorOp.disable]).paft = 0
        ∧ (MotorController.init.runOps
            [MotorOp.enable, MotorOp.go 1 2 3 4, MotorOp.disable]).saft = 0) :=
  ⟨by decide, c5_disabled_implies_zero_speeds
    [MotorOp.enable, MotorOp.go 1 2 3 4, MotorOp.disable] (by decide)⟩

/-- C6 counterexample: enable, set speeds to (1,1,1,1), disable, then
STOP: the motor controller reports FAIL, but the stored speeds (all zero,
because disable itself forced a stop) differ from their value before the
disable, contradicting the claim as stated. -/
theorem c6_counterexample :
    ((((MotorController.init.runOps [MotorOp.enable, MotorOp.go 1 1 1 1]).disable).stop).1
        = Response.FAIL)
    ∧ ((((MotorController.init.runOps
          [MotorOp.enable, MotorOp.go 1 1 1 1]).disable).stop).2).get_speeds
      ≠ (MotorController.init.runOps [MotorOp.enable, MotorOp.go 1 1 1 1]).get_speeds := by
  decide

/-- C6 (amended): disable always leaves the controller disabled, and with
the controller disabled, STOP and GO return FAIL and change nothing, and
through the protocol engine each is answered by an ERROR frame with all
four numeric fields zero; the stored speeds are unchanged from their value
after the disable (the disable itself already zeroed them). -/
theorem c6_disabled_stop_go_fail (st : I2CSlave) (f1 f2 f3 f4 : ℚ)
    (hm : st.mem.length = MEMORY_SIZE) (hdis : st.motor.enabled = false) :
    (∀ m : MotorController, (m.disable).enabled = false)
    ∧ (st.motor.stop).1 = Response.FAIL ∧ (st.motor.stop).2 = st.motor
    ∧ (st.motor.go f1 f2 f3 f4).1 = Response.FAIL
    ∧ (st.motor.go f1 f2 f3 f4).2 = st.motor
    ∧ ((st.masterWrite (Payload.mk' .STOP 0 0 0 0)).irq_end_write .noFault).motor = st.motor
    ∧ rspWindow ((st.masterWrite (Payload.mk' .STOP 0 0 0 0)).irq_end_write .noFault).mem
        = (Payload.mk' .ERROR 0 0 0 0).to_bytes
    ∧ ((st.masterWrite (Payload.mk' .GO f1 f2 f3 f4)).irq_end_write .noFault).motor = st.motor
    ∧ rspWindow ((st.masterWrite (Payload.mk' .GO f1 f2 f3 f4)).irq_end_write .noFault).mem
        = (Payload.mk' .ERROR 0 0 0 0).to_bytes := by
  obtain ⟨hs1, hs2, _, _, _⟩ := irq_run_frame st (Payload.mk' .STOP 0 0 0 0) hm
  obtain ⟨hg1, hg2, _, _, _⟩ := irq_run_frame st (Payload.mk' .GO f1 f2 f3 f4) hm
  refine ⟨?_, ?_, ?_, ?_, ?_, ?_, ?_, ?_, ?_⟩
  · intro m
    unfold MotorController.disable MotorController.componentDisable
    split <;> simp_all
  · simp [MotorController.stop, hdis]
  · simp [MotorController.stop, hdis]
  · simp [MotorController.go, hdis]
  · simp [MotorController.go, hdis]
  · rw [hs1]
    simp [motorStep, Payload.mk', Command.code, Command.from_code,
      MotorController.stop, hdis]
  · rw [hs2]
    simp [rspPayload, Payload.mk', Command.code, Command.from_code, hdis]
  · rw [hg1]
    simp [motorStep, Payload.mk', Command.code, Command.from_code,
      MotorController.go, hdis]
  · rw [hg2]
    simp [rspPayload, Payload.mk', Command.code, Command.from_code, hdis]

theorem c6_witness :
    (∀ m : MotorController, (m.disable).enabled = false)
    ∧ (I2CSlave.init.motor.stop).1 = Response.FAIL
    ∧ (I2CSlave.init.motor.stop).2 = I2CSlave.init.motor
    ∧ (I2CSlave.init.motor.go 1 2 3 4).1 = Response.FAIL
    ∧ (I2CSlave.init.motor.go 1 2 3 4).2 = I2CSlave.init.motor
    ∧ ((I2CSlave.init.masterWrite (Payload.mk' .STOP 0 0 0 0)).irq_end_write
        .noFault).motor = I2CSlave.init.motor
    ∧ rspWindow ((I2CSlave.init.masterWrite (Payload.mk' .STOP 0 0 0 0)).irq_end_write
        .noFault).mem = (Payload.mk' .ERROR 0 0 0 0).to_bytes
    ∧ ((I2CSlave.init.masterWrite (Payload.mk' .GO 1 2 3 4)).irq_end_write
        .noFault).motor = I2CSlave.init.motor
    ∧ rspWindow ((I2CSlave.init.masterWrite (Payload.mk' .GO 1 2 3 4)).irq_end_write
        .noFault).mem = (Payload.mk' .ERROR 0 0 0 0).to_bytes :=
  c6_disabled_stop_go_fail I2CSlave.init 1 2 3 4 (by decide) (by decide)

/-- Concrete engine state whose motor controller has been enabled. -/
def enabledSlave : I2CSlave :=
  { I2CSlave.init with motor := MotorController.init.enable }

/-- C7: a GO command handled while the motor controller is enabled stores
the four values verbatim and returns OKAY, is answered by an ACK frame
carrying exactly those values, and a subsequent REQUEST (with no
intervening speed-mutating command) is answered by a RESPONSE frame
carrying the same values. -/
theorem c7_go_verbatim_then_request (st : I2CSlave) (f1 f2 f3 f4 : ℚ)
    (hm : st.mem.length = MEMORY_SIZE) (hen : st.motor.enabled = true) :
    (st.motor.go f1 f2 f3 f4).1 = Response.OKAY
    ∧ ((st.masterWrite (Payload.mk' .GO f1 f2 f3 f4)).irq_end_write
        .noFault).motor.get_speeds = (f1, f2, f3, f4)
    ∧ rspWindow ((st.masterWrite (Payload.mk' .GO f1 f2 f3 f4)).irq_end_write
        .noFault).mem = (Payload.mk' .ACK f1 f2 f3 f4).to_bytes
    ∧ rspWindow ((((st.masterWrite (Payload.mk' .GO f1 f2 f3 f4)).irq_end_write
          .noFault).masterWrite (Payload.mk' .REQUEST 0 0 0 0)).irq_end_write
        .noFault).mem = (Payload.mk' .RESPONSE f1 f2 f3 f4).to_bytes := by
  obtain ⟨h1, h2, h3, _, _⟩ := irq_run_frame st (Payload.mk' .GO f1 f2 f3 f4) hm
  have hmot : motorStep st.motor (Payload.mk' .GO f1 f2 f3 f4)
      = { st.motor with pfwd := f1, sfwd := f2, paft := f3, saft := f4 } := by
    simp [motorStep, Payload.mk', Command.code, Command.from_code,
      MotorController.go, hen]
  refine ⟨?_, ?_, ?_, ?_⟩
  · simp [MotorController.go, hen]
  · rw [h1, hmot]
    rfl
  · rw [h2]
    simp [rspPayload, Payload.mk', Command.code, Command.from_code, hen]
  · obtain ⟨_, h2', _, _, _⟩ :=
      irq_run_frame ((st.masterWrite (Payload.mk' .GO f1 f2 f3 f4)).irq_end_write .noFault)
        (Payload.mk' .REQUEST 0 0 0 0) h3
    rw [h2', h1, hmot]
    simp [rspPayload, Payload.mk', Command.code, Command.from_code]

theorem c7_witness :
    (enabledSlave.motor.go 1 1 (-1) (-1)).1 = Response.OKAY
    ∧ ((enabledSlave.masterWrite (Payload.mk' .GO 1 1 (-1) (-1))).irq_end_write
        .noFault).motor.get_speeds = (1, 1, -1, -1)
    ∧ rspWindow ((enabledSlave.masterWrite (Payload.mk' .GO 1 1 (-1) (-1))).irq_end_write
        .noFault).mem = (Payload.mk' .ACK 1 1 (-1) (-1)).to_bytes
    ∧ rspWindow ((((enabledSlave.masterWrite (Payload.mk' .GO 1 1 (-1) (-1))).irq_end_write
          .noFault).masterWrite (Payload.mk' .REQUEST 0 0 0 0)).irq_end_write
        .noFault).mem = (Payload.mk' .RESPONSE 1 1 (-1) (-1)).to_bytes :=
  c7_go_verbatim_then_request enabledSlave 1 1 (-1) (-1) (by decide) (by decide)

/-- C3 evaluated at the failing input: on a frame whose sync header does
not match (the all-zero probe), the handler does publish the ERROR
response with the reserved probe code 3 and does emit the low-severity
warning entry, but it then also emits an error-severity entry, because
handle_error logs at error severity; this contradicts the claim (and the
inline comment announcing that sync-header issues are silently ignored). -/
theorem c3_probe_error_log_entries :
    (probe.irq_end_write .noFault).logs = [Severity.warning, Severity.error]
    ∧ rspWindow (probe.irq_end_write .noFault).mem = (Payload.mk' .ERROR 3 0 0 0).to_bytes
    ∧ Severity.error ∈ (probe.irq_end_write .noFault).logs := by
  decide

/-- C4 counterexample: on an end-of-write event whose frame fails to
decode (the all-zero probe), the transaction counter is not incremented
and the LED is not toggled, because the increment and toggle sit inside
the try block after the dispatch; this contradicts the claim as stated
(which asserts both happen on failure as well). -/
theorem c4_counterexample :
    (probe.irq_end_write .noFault).tx_count = probe.tx_count
    ∧ (probe.irq_end_write .noFault).led = probe.led
    ∧ probe.tx_count ≠ probe.tx_count + 1 := by
  decide

/-- C4 (amended): the transaction counter is incremented and the LED
toggled exactly when the command frame decodes successfully and no
unexpected fault interrupts the dispatch; when decoding fails (or an
unexpected exception replaces it) or the dispatch faults, both are left
unchanged, although the error response is still written. -/
theorem c4_counter_and_led (st : I2CSlave) (fault : Fault)
    (hm : st.mem.length = MEMORY_SIZE) :
    (∀ p : Payload,
      (if fault = Fault.inDecode then Except.error PyErr.exception
        else Payload.from_bytes (cmdWindow st.mem) : Except PyErr Payload) = .ok p →
      fault ≠ Fault.inDispatch →
      (st.irq_end_write fault).tx_count = st.tx_count + 1
        ∧ (st.irq_end_write fault).led = !st.led)
    ∧ (∀ e : PyErr,
      (if fault = Fault.inDecode then Except.error PyErr.exception
        else Payload.from_bytes (cmdWindow st.mem) : Except PyErr Payload) = .error e →
      (st.irq_end_write fault).tx_count = st.tx_count
        ∧ (st.irq_end_write fault).led = st.led)
    ∧ (∀ p : Payload,
      (if fault = Fault.inDecode then Except.error PyErr.exception
        else Payload.from_bytes (cmdWindow st.mem) : Except PyErr Payload) = .ok p →
      fault = Fault.inDispatch →
      (st.irq_end_write fault).tx_count = st.tx_count
        ∧ (st.irq_end_write fault).led = st.led) := by
  refine ⟨?_, ?_, ?_⟩
  · intro p hp hf2
    have hf1 : fault ≠ Fault.inDecode := by
      intro h
      rw [if_pos h] at hp
      exact absurd hp (by simp)
    rw [if_neg hf1] at hp
    rw [irq_run_decode_ok st p fault hp hm hf1 hf2]
    obtain ⟨_, _, _, htx, hled, _⟩ :=
      dispatch_spec ((st.write RSP_OFFSET (List.replicate Payload.PACKET_SIZE 0)).dbgStep)
        p fault.sendFault
    constructor
    · rw [bump_tx, htx, dbgStep_tx, write_tx]
    · rw [bump_led, hled, dbgStep_led, write_led]
  · intro e he
    rw [irq_run_decode_err st e fault he hm]
    obtain ⟨_, _, _, htx, hled, _⟩ :=
      handle_error_spec ((st.write RSP_OFFSET (List.replicate Payload.PACKET_SIZE 0)).log
        (errSeverity e)) (errCode e) fault.sendFault
    exact ⟨by rw [htx]; rfl, by rw [hled]; rfl⟩
  · intro p hp hfd
    subst hfd
    rw [if_neg (by decide)] at hp
    rw [irq_run_dispatch_fault st p hp hm]
    obtain ⟨_, _, _, htx, hled, _⟩ :=
      handle_error_spec ((st.write RSP_OFFSET (List.replicate Payload.PACKET_SIZE 0)).log
        Severity.error) 4 false
    exact ⟨by rw [htx]; rfl, by rw [hled]; rfl⟩

theorem c4_witness :
    (∀ p : Payload,
      (if Fault.noFault = Fault.inDecode then Except.error PyErr.exception
        else Payload.from_bytes (cmdWindow pingSample.mem) : Except PyErr Payload) = .ok p →
      Fault.noFault ≠ Fault.inDispatch →
      (pingSample.irq_end_write .noFault).tx_count = pingSample.tx_count + 1
        ∧ (pingSample.irq_end_write .noFault).led = !pingSample.led)
    ∧ (∀ e : PyErr,
      (if Fault.noFault = Fault.inDecode then Except.error PyErr.exception
        else Payload.from_bytes (cmdWindow pingSample.mem) : Except PyErr Payload) = .error e →
      (pingSample.irq_end_write .noFault).tx_count = pingSample.tx_count
        ∧ (pingSample.irq_end_write .noFault).led = pingSample.led)
    ∧ (∀ p : Payload,
      (if Fault.noFault = Fault.inDecode then Except.error PyErr.exception
        else Payload.from_bytes (cmdWindow pingSample.mem) : Except PyErr Payload) = .ok p →
      Fault.noFault = Fault.inDispatch →
      (pingSample.irq_end_write .noFault).tx_count = pingSample.tx_count
        ∧ (pingSample.irq_end_write .noFault).led = pingSample.led) :=
  c4_counter_and_led pingSample .noFault (by decide)

/-- C2 counterexample: a fault injected into the response write while a
PING command is being answered is swallowed inside send_response: no ERROR
frame with the internal-fault code 4 appears in the response window (it
stays all-zero from the clear step), contradicting the claim as stated. -/
theorem c2_counterexample :
    rspWindow (pingSample.irq_end_write .inSend).mem
        ≠ (Payload.mk' .ERROR 4 0 0 0).to_bytes
    ∧ rspWindow (pingSample.irq_end_write .inSend).mem
        = List.replicate Payload.PACKET_SIZE 0 := by
  decide

/-- C2 (amended): every unexpected fault is caught inside the handler; a
fault raised while decoding is answered with the internal-fault ERROR
frame (code 4), so is a fault raised at dispatch of a decodable frame; but
a fault raised during response writing is caught inside send_response and
merely logged, leaving the response window all-zero from the clear step
rather than carrying an ERROR frame. -/
theorem c2_fault_recovery (st : I2CSlave) (fault : Fault)
    (hm : st.mem.length = MEMORY_SIZE) :
    (fault = Fault.inDecode →
      rspWindow (st.irq_end_write fault).mem = (Payload.mk' .ERROR 4 0 0 0).to_bytes)
    ∧ (fault = Fault.inDispatch → ∀ p : Payload,
      Payload.from_bytes (cmdWindow st.mem) = .ok p →
      rspWindow (st.irq_end_write fault).mem = (Payload.mk' .ERROR 4 0 0 0).to_bytes)
    ∧ (fault = Fault.inSend →
      rspWindow (st.irq_end_write fault).mem = List.replicate Payload.PACKET_SIZE 0) := by
  refine ⟨?_, ?_, ?_⟩
  · intro hf
    subst hf
    have herr : (if Fault.inDecode = Fault.inDecode then Except.error PyErr.exception
        else Payload.from_bytes (cmdWindow st.mem) : Except PyErr Payload)
        = .error .exception := by rw [if_pos rfl]
    rw [irq_run_decode_err st .exception .inDecode herr hm]
    obtain ⟨_, hmem, _, _, _, _⟩ :=
      handle_error_spec ((st.write RSP_OFFSET (List.replicate Payload.PACKET_SIZE 0)).log
        (errSeverity .exception)) (errCode .exception) Fault.inDecode.sendFault
    rw [hmem]
    simp only [Fault.sendFault, errCode, Bool.false_eq_true, if_false, log_mem, write_mem]
    rw [rspWindow_writeSlice_rsp _ _ (length_clear st.mem hm) (length_to_bytes _)]
    norm_num [Payload.mk']
  · intro hf p hp
    subst hf
    rw [irq_run_dispatch_fault st p hp hm]
    obtain ⟨_, hmem, _, _, _, _⟩ :=
      handle_error_spec ((st.write RSP_OFFSET (List.replicate Payload.PACKET_SIZE 0)).log
        Severity.error) 4 false
    rw [hmem]
    simp only [Bool.false_eq_true, if_false, log_mem, write_mem]
    rw [rspWindow_writeSlice_rsp _ _ (length_clear st.mem hm) (length_to_bytes _)]
    norm_num [Payload.mk']
  · intro hf
    subst hf
    cases hd : Payload.from_bytes (cmdWindow st.mem) with
    | error e =>
      have herr : (if Fault.inSend = Fault.inDecode then Except.error PyErr.exception
          else Payload.from_bytes (cmdWindow st.mem) : Except PyErr Payload)
          = .error e := by rw [if_neg (by decide)]; exact hd
      rw [irq_run_decode_err st e .inSend herr hm]
      obtain ⟨_, hmem, _, _, _, _⟩ :=
        handle_error_spec ((st.write RSP_OFFSET (List.replicate Payload.PACKET_SIZE 0)).log
          (errSeverity e)) (errCode e) Fault.inSend.sendFault
      rw [hmem]
      simp only [Fault.sendFault, if_true, log_mem, write_mem]
      exact rspWindow_clear st.mem hm
    | ok p =>
      rw [irq_run_decode_ok st p .inSend hd hm (by decide) (by decide)]
      obtain ⟨_, hmem, _, _, _, _⟩ :=
        dispatch_spec ((st.write RSP_OFFSET (List.replicate Payload.PACKET_SIZE 0)).dbgStep)
          p Fault.inSend.sendFault
      rw [bump_mem, hmem]
      simp only [Fault.sendFault, if_true, dbgStep_mem, write_mem]
      exact rspWindow_clear st.mem hm

theorem c2_witness :
    (Fault.inDecode = Fault.inDecode →
      rspWindow (pingSample.irq_end_write .inDecode).mem
        = (Payload.mk' .ERROR 4 0 0 0).to_bytes)
    ∧ (Fault.inDecode = Fault.inDispatch → ∀ p : Payload,
      Payload.from_bytes (cmdWindow pingSample.mem) = .ok p →
      rspWindow (pingSample.irq_end_write .inDecode).mem
        = (Payload.mk' .ERROR 4 0 0 0).to_bytes)
    ∧ (Fault.inDecode = Fault.inSend →
      rspWindow (pingSample.irq_end_write .inDecode).mem
        = List.replicate Payload.PACKET_SIZE 0) :=
  c2_fault_recovery pingSample .inDecode (by decide)

/-- C1: for every end-of-write event, the first buffer mutation the
handler performs is zeroing the entire response window (before decode or
dispatch touches the buffer), that cleared buffer indeed shows an all-zero
response window, every recorded buffer state other than the final
committed one still shows the all-zero response window, and the final
recorded state is the committed buffer — so between the clear step and the
final response write the response window never reads as the previous
response. -/
theorem c1_window_cleared_before_dispatch (st : I2CSlave) (fault : Fault)
    (hm : st.mem.length = MEMORY_SIZE) :
    (({ st with memLog := [] } : I2CSlave).irq_end_write fault).memLog.head?
        = some (writeSlice st.mem RSP_OFFSET (List.replicate Payload.PACKET_SIZE 0))
    ∧ rspWindow (writeSlice st.mem RSP_OFFSET (List.replicate Payload.PACKET_SIZE 0))
        = List.replicate Payload.PACKET_SIZE 0
    ∧ (∀ x ∈ (({ st with memLog := [] } : I2CSlave).irq_end_write fault).memLog.dropLast,
        rspWindow x = List.replicate Payload.PACKET_SIZE 0)
    ∧ (({ st with memLog := [] } : I2CSlave).irq_end_write fault).memLog.getLast?
        = some ((({ st with memLog := [] } : I2CSlave).irq_end_write fault).mem) := by
  have hz := rspWindow_clear st.mem hm
  cases hd : (if fault = Fault.inDecode then Except.error PyErr.exception
      else Payload.from_bytes (cmdWindow st.mem) : Except PyErr Payload) with
  | error e =>
    rw [irq_run_decode_err ({ st with memLog := [] } : I2CSlave) e fault hd hm]
    obtain ⟨_, hmem, hmemLog, _, _, _⟩ :=
      handle_error_spec ((({ st with memLog := [] } : I2CSlave).write RSP_OFFSET
        (List.replicate Payload.PACKET_SIZE 0)).log (errSeverity e)) (errCode e)
        fault.sendFault
    rw [hmem, hmemLog]
    cases hsf : fault.sendFault <;>
      simp_all [List.dropLast, I2CSlave.write, I2CSlave.log]
  | ok p =>
    by_cases hfd : fault = Fault.inDispatch
    · subst hfd
      rw [if_neg (by decide)] at hd
      rw [irq_run_dispatch_fault ({ st with memLog := [] } : I2CSlave) p hd hm]
      obtain ⟨_, hmem, hmemLog, _, _, _⟩ :=
        handle_error_spec ((({ st with memLog := [] } : I2CSlave).write RSP_OFFSET
          (List.replicate Payload.PACKET_SIZE 0)).log Severity.error) 4 false
      rw [hmem, hmemLog]
      simp_all [List.dropLast, I2CSlave.write, I2CSlave.log]
    · have hf1 : fault ≠ Fault.inDecode := by
        intro h
        rw [if_pos h] at hd
        exact absurd hd (by simp)
      rw [if_neg hf1] at hd
      rw [irq_run_decode_ok ({ st with memLog := [] } : I2CSlave) p fault hd hm hf1 hfd]
      obtain ⟨_, hmem, hmemLog, _, _, _⟩ :=
        dispatch_spec ((({ st with memLog := [] } : I2CSlave).write RSP_OFFSET
          (List.replicate Payload.PACKET_SIZE 0)).dbgStep) p fault.sendFault
      rw [bump_mem, bump_memLog, hmem, hmemLog]
      cases hsf : fault.sendFault <;> simp_all [List.dropLast]

theorem c1_witness :
    ((({ pingSample with memLog := [] } : I2CSlave).irq_end_write .noFault).memLog.head?
        = some (writeSlice pingSample.mem RSP_OFFSET (List.replicate Payload.PACKET_SIZE 0)))
    ∧ rspWindow (writeSlice pingSample.mem RSP_OFFSET (List.replicate Payload.PACKET_SIZE 0))
        = List.replicate Payload.PACKET_SIZE 0
    ∧ (∀ x ∈ (({ pingSample with memLog := [] } : I2CSlave).irq_end_write
          .noFault).memLog.dropLast,
        rspWindow x = List.replicate Payload.PACKET_SIZE 0)
    ∧ (({ pingSample with memLog := [] } : I2CSlave).irq_end_write .noFault).memLog.getLast?
        = some ((({ pingSample with memLog := [] } : I2CSlave).irq_end_write .noFault).mem) :=
  c1_window_cleared_before_dispatch pingSample .noFault (by decide)

end I2CMC
